import Mathlib

/-!
Verification development for the multi-session Steam browser shell
(`multisteam.py`).  The Python source is shallowly embedded: each Python
function named below is translated into a Lean definition over explicit
state records, stateful Qt callbacks become step functions on those
records, and timer/asynchronous callbacks become events in a trace.
Machine integers in the source are CPython arbitrary-precision ints, so
they are modelled by `Int`/`Nat` directly.
-/

namespace Multisteam

/-! ### Python string helpers

`str.strip()` on the ASCII whitespace characters, `in` substring tests,
and `str.split(":", 1)` are modelled over `List Char`. -/

/-- Whitespace characters removed by Python `str.strip()` (ASCII range). -/
def isPySpace (c : Char) : Bool :=
  (c == ' ') || (c == '\t') || (c == '\n') || (c == '\r') || (c == '\x0b') || (c == '\x0c')

/-- Python `s.strip()`: drop whitespace from both ends. -/
def pyStrip (s : String) : String :=
  String.mk (((s.data.dropWhile isPySpace).reverse.dropWhile isPySpace).reverse)

/-- Python `pat in hay` substring test. -/
def strContainsSub (hay pat : String) : Bool :=
  hay.data.tails.any (fun t => pat.data.isPrefixOf t)

/-! ### Health monitor (`Page.javaScriptConsoleMessage`,
`BrowserView._onRenderCrash`, `BrowserView.postLoadHealthcheck`,
`BrowserView._postBlankJS`, `BrowserView._maybeReloadOnBlank`)

One `HState` holds the per-session recovery bookkeeping the source keeps
on the `Page` object (`last_fix_ms`) and on the `BrowserView`
(`_lastRenderReloadMs`, `_last_blank_fix_ms`, `_blank_fix_tries`), all of
which start at 0.  The pending counters model the outstanding `toHtml`
requests, scheduled `_postBlankJS` timers and outstanding `runJavaScript`
requests: a callback can only be delivered if a matching request was
issued.  Each event carries the wall-clock reading `now`
(`QDateTime.currentMSecsSinceEpoch`) and `cur`, the value
`owner.current_name()` would return at the moment the callback is
delivered; the view's own profile name is the parameter `my`. -/

/-- The fatal script-bundle substrings hard-coded in
`Page.javaScriptConsoleMessage`. -/
def fatalSubstrings : List String :=
  ["ChunkLoadError", "jQuery is not defined", "Prototype is not defined"]

/-- Python `any(s in msg for s in [...])`. -/
def isFatalConsoleMsg (msg : String) : Bool :=
  fatalSubstrings.any (fun pat => strContainsSub msg pat)

/-- Per-session recovery bookkeeping (all fields start at 0). -/
structure HState where
  lastFixMs : Int
  lastRenderReloadMs : Int
  lastBlankFixMs : Int
  blankFixTries : Nat
  pendingHtml : Nat
  pendingJsTimer : Nat
  pendingJs : Nat
deriving DecidableEq

/-- Fresh per-session recovery state. -/
def hInit : HState := ⟨0, 0, 0, 0, 0, 0, 0⟩

/-- Which failure detector issued a reload. -/
inductive Det where
  | console
  | crash
  | blank
deriving DecidableEq

/-- A record of one issued cache-bypassing reload: when it was issued,
what `owner.current_name()` was at that moment, and which detector
issued it. -/
structure REntry where
  time : Int
  cur : String
  det : Det
deriving DecidableEq

/-- Events delivered to one session's recovery machinery. -/
inductive HEvent where
  | console (now : Int) (cur : String) (msg : String)
  | renderCrash (now : Int) (cur : String)
  | healthcheck (now : Int) (cur : String) (url : String)
  | postBlankJs (cur : String)
  | htmlResult (now : Int) (cur : String) (html : String)
  | jsResult (now : Int) (cur : String) (res : Option Bool)
deriving DecidableEq

/-- One step of the recovery machinery, translated clause by clause from
the source.  Returns the new state and the reload issued by this event,
if any. -/
def hStep (my : String) (s : HState) : HEvent → HState × Option REntry
  | .console now cur msg =>
      if isFatalConsoleMsg msg then
        if cur ≠ my then (s, none)
        else if now - s.lastFixMs > 5000 then
          ({ s with lastFixMs := now }, some ⟨now, cur, .console⟩)
        else (s, none)
      else (s, none)
  | .renderCrash now cur =>
      if cur ≠ my then (s, none)
      else if now - s.lastRenderReloadMs < 5000 then (s, none)
      else ({ s with lastRenderReloadMs := now }, some ⟨now, cur, .crash⟩)
  | .healthcheck _now cur url =>
      if cur ≠ my then (s, none)
      else if url = "" ∨ url = "about:blank" then (s, none)
      else ({ s with pendingHtml := s.pendingHtml + 1,
                     pendingJsTimer := s.pendingJsTimer + 1 }, none)
  | .postBlankJs _cur =>
      if s.pendingJsTimer = 0 then (s, none)
      else ({ s with pendingJsTimer := s.pendingJsTimer - 1,
                     pendingJs := s.pendingJs + 1 }, none)
  | .htmlResult now cur html =>
      if s.pendingHtml = 0 then (s, none)
      else
        let s1 := { s with pendingHtml := s.pendingHtml - 1 }
        let h := pyStrip html
        if h ≠ "" ∧ 50 ≤ h.length then
          ({ s1 with blankFixTries := 0 }, none)
        else if s1.blankFixTries < 3 ∧ now - s1.lastBlankFixMs > 5000 then
          ({ s1 with lastBlankFixMs := now, blankFixTries := s1.blankFixTries + 1 },
           some ⟨now, cur, .blank⟩)
        else (s1, none)
  | .jsResult now cur res =>
      if s.pendingJs = 0 then (s, none)
      else
        let s1 := { s with pendingJs := s.pendingJs - 1 }
        let isBlank := res.getD false
        if isBlank ∧ now - s1.lastBlankFixMs > 5000 ∧ s1.blankFixTries < 3 then
          ({ s1 with lastBlankFixMs := now, blankFixTries := s1.blankFixTries + 1 },
           some ⟨now, cur, .blank⟩)
        else (s1, none)

/-- Run a trace of events, collecting every reload issued, in order. -/
def hRun (my : String) (s : HState) : List HEvent → HState × List REntry
  | [] => (s, [])
  | e :: es =>
      let p := hStep my s e
      let q := hRun my p.1 es
      (q.1, p.2.toList ++ q.2)

/-- The session name used in concrete traces. -/
def sessA : String := "A"

/-- Another session name, used to model a defocused session. -/
def sessB : String := "B"

/-- A console message containing a fatal script-bundle substring. -/
def msgChunk : String := "ChunkLoadError: Loading chunk 5 failed"

/-- A healthy page URL. -/
def urlMain : String := "https://steamcommunity.com/"

/-! ### Decimal rendering of `Nat` (Python f-string `f"Steam {n}"`) -/

/-- The decimal digit character for `k % 10`. -/
def digitChr (k : Nat) : Char :=
  match k with
  | 0 => '0'
  | 1 => '1'
  | 2 => '2'
  | 3 => '3'
  | 4 => '4'
  | 5 => '5'
  | 6 => '6'
  | 7 => '7'
  | 8 => '8'
  | _ => '9'

/-- Most-significant-first decimal digits of `n`; `fuel > n` suffices. -/
def natReprAux : Nat → Nat → List Char
  | 0, _ => []
  | fuel + 1, n =>
      if n < 10 then [digitChr n]
      else natReprAux fuel (n / 10) ++ [digitChr (n % 10)]

/-- Decimal rendering of a natural number. -/
def natRepr (n : Nat) : String := String.mk (natReprAux (n + 1) n)

/-- The profile name `f"Steam {n}"` generated by `MultiBrowser.nextSteamName`. -/
def steamName (n : Nat) : String := "Steam " ++ natRepr n

/-! ### Session registry and switcher (`MultiBrowser`)

`AppState` carries the fields of `MultiBrowser` that the claims are
about: `profiles`, `lastActive`, `currentName` (the focus pointer, also
mirrored into the `current_name` widget property), the key set of the
`browsers` dict in insertion order, the registered popups
(`popupsByProfile` flattened, each with its owner name), `lastUrls`, the
profile storage directories existing on disk, the warning log, and the
last written config document.  UI-only state (splitter widths, account
list widget) is not modelled. -/

/-- The persisted config document (`saveConfig`/`loadConfig` schema). -/
structure Cfg where
  profiles : List String
  last_active : String
  last_urls : List (String × String)
  accounts_visible : Bool
  accounts_panel_width : Int
  leftbar_width : Int
  win_geometry : String
deriving DecidableEq

/-- One registered popup window (`PopupWindow` plus its registry entry). -/
structure Popup where
  owner : String
  pid : Nat
  visible : Bool
deriving DecidableEq

/-- The modelled `MultiBrowser` state. -/
structure AppState where
  profiles : List String
  lastActive : String
  currentName : String
  browsers : List String
  popups : List Popup
  nextPopupId : Nat
  lastUrls : List (String × String)
  diskDirs : List String
  warnLog : List String
  savedConfig : Option Cfg
deriving DecidableEq

/-- The application data root (`appDataDir`, an external location). -/
def appDataRoot : String := "<AppData>"

/-- Source `MultiBrowser.profileDir`: the storage directory derived from the
profile name (the mkdir side effects are modelled at the call sites). -/
def profileDir (name : String) : String :=
  appDataRoot ++ "/profiles/" ++ name

/-- Python `mkdir(exist_ok=True)` on the set of existing directories. -/
def addDir (dirs : List String) (d : String) : List String :=
  if d ∈ dirs then dirs else dirs ++ [d]

/-- Startup state: no config file, zero profiles
(`MultiBrowser.__init__` with `loadConfig` finding nothing). -/
def initState : AppState := ⟨[], "", "", [], [], 0, [], [], [], none⟩

/-- The document written by `MultiBrowser.saveConfig` (UI fields are
written from their defaults, geometry as an opaque blob). -/
def mkCfg (s : AppState) : Cfg :=
  ⟨s.profiles, s.lastActive, s.lastUrls, false, 320, 160, ""⟩

/-- Source `MultiBrowser.saveConfig`: rewrite the persisted document. -/
def saveConfig (s : AppState) : AppState :=
  { s with savedConfig := some (mkCfg s) }

/-- Source `MultiBrowser.showPopupsFor`: show exactly the popups owned by
`profileName`, hide all others. -/
def showPopupsFor (s : AppState) (profileName : String) : AppState :=
  { s with popups := s.popups.map (fun p => { p with visible := p.owner == profileName }) }

/-- Source `MultiBrowser.switchAccount`: no-op on an unknown name, otherwise
move the focus pointer, persist, and re-evaluate popup visibility. -/
def switchAccount (s : AppState) (acc : String) : AppState :=
  if acc ∈ s.browsers then
    showPopupsFor (saveConfig { s with currentName := acc, lastActive := acc }) acc
  else s

/-- Source `MultiBrowser.nextSteamName`'s search loop, with explicit fuel
(the Python `while` loop; `browsers.length + 1` fuel always suffices). -/
def nextSteamAux (browsers : List String) : Nat → Nat → Nat
  | 0, n => n
  | fuel + 1, n =>
      if steamName n ∈ browsers then nextSteamAux browsers fuel (n + 1)
      else n

/-- The number `n` chosen by `MultiBrowser.nextSteamName`. -/
def nextSteamNum (browsers : List String) : Nat :=
  nextSteamAux browsers (browsers.length + 1) 1

/-- Source `MultiBrowser.nextSteamName`: the first free `f"Steam {n}"`. -/
def nextSteamName (browsers : List String) : String :=
  steamName (nextSteamNum browsers)

/-- Source `MultiBrowser.createProfile`: create the storage directories and the
isolated engine profile, register the view, optionally switch to it. -/
def createProfile (s : AppState) (name : String) (doSwitch : Bool) : AppState :=
  let s1 := { s with diskDirs := addDir s.diskDirs (profileDir name),
                     browsers := s.browsers ++ [name] }
  if doSwitch then switchAccount s1 name else s1

/-- Source `MultiBrowser.addAccount`: generate the next free name, create and
switch to it, record it in the profile list, persist. -/
def addAccount (s : AppState) : AppState :=
  let acc := nextSteamName s.browsers
  let s1 := createProfile s acc true
  let s2 := if acc ∈ s1.profiles then s1 else { s1 with profiles := s1.profiles ++ [acc] }
  saveConfig { s2 with lastActive := acc }

/-- Source `MultiBrowser.deleteProfile`: after confirmation, destroy the view,
close its popups, best-effort delete the storage directory (`rmOk`
models whether `shutil.rmtree` succeeds), drop the profile from the
registry, the profile list and the URL map, pick a new last-active
profile and switch to it if one remains. -/
def deleteProfile (s : AppState) (name : String) (confirmYes rmOk : Bool) : AppState :=
  if name ∈ s.browsers then
    if confirmYes then
      let s1 := { s with browsers := s.browsers.erase name,
                         popups := s.popups.filter (fun p => p.owner ≠ name) }
      let dirs1 := addDir s1.diskDirs (profileDir name)
      let s2 :=
        if rmOk then { s1 with diskDirs := dirs1.erase (profileDir name) }
        else { s1 with diskDirs := dirs1,
                       warnLog := s1.warnLog ++ ["Failed to remove profile dir: " ++ profileDir name] }
      let s3 := { s2 with profiles := s2.profiles.erase name,
                          lastUrls := s2.lastUrls.filter (fun kv => kv.1 ≠ name) }
      let s4 := { s3 with lastActive := match s3.profiles with | [] => "" | a :: _ => a }
      let s5 := saveConfig s4
      if s5.lastActive ≠ "" then switchAccount s5 s5.lastActive else s5
    else s
  else s

/-- Source `BrowserView.createWindow`: register a popup under the opener's
profile name, then show it iff that profile is currently focused. -/
def createPopup (s : AppState) (owner : String) : AppState :=
  { s with popups := s.popups ++ [⟨owner, s.nextPopupId, s.currentName == owner⟩],
           nextPopupId := s.nextPopupId + 1 }

/-- A popup window destroyed by the user closing it
(`popup.destroyed` → `MultiBrowser.unregisterPopup`). -/
def closePopupOp (s : AppState) (pid : Nat) : AppState :=
  { s with popups := s.popups.filter (fun p => p.pid ≠ pid) }

/-- States reachable from startup-with-zero-profiles by the modelled
operations.  Popup creation requires a live opener view. -/
inductive Reach : AppState → Prop where
  | init : Reach initState
  | add {s : AppState} : Reach s → Reach (addAccount s)
  | switch {s : AppState} (acc : String) : Reach s → Reach (switchAccount s acc)
  | del {s : AppState} (name : String) (confirmYes rmOk : Bool) :
      Reach s → Reach (deleteProfile s name confirmYes rmOk)
  | popup {s : AppState} (owner : String) :
      owner ∈ s.browsers → Reach s → Reach (createPopup s owner)
  | closePopup {s : AppState} (pid : Nat) : Reach s → Reach (closePopupOp s pid)

/-! ### Credential import walker (`ImportLogPassController`) -/

/-- Walker state: the parsed `(login, password)` pairs, the cursor, and
the active flag. -/
structure Walker where
  lines : List (String × String)
  index : Nat
  active : Bool
deriving DecidableEq

/-- Source `ImportLogPassController.__init__`: the cursor is the requested
start index clamped by `max(0, min(start_index, len(lines)))`. -/
def walkerInit (lines : List (String × String)) (start_index : Int) : Walker :=
  { lines := lines,
    index := (max 0 (min start_index (lines.length : Int))).toNat,
    active := true }

/-- The user-facing start-index surface
(`_importLogPassContextMenu`): a 1-based number converted to 0-based by
`idx - 1` before the controller clamps it. -/
def walkerFromUI (lines : List (String × String)) (userIdx : Int) : Walker :=
  walkerInit lines (userIdx - 1)

/-- Source `ImportLogPassController.stop` (idempotent). -/
def walkerStop (w : Walker) : Walker :=
  if w.active then { w with active := false } else w

/-- The operator's choice in the per-entry dialog of `onProfileAdded`. -/
inductive WButton where
  | copy
  | skip
  | stop
deriving DecidableEq

/-- Events delivered to a walker: a profile-created signal (with whether
the owner found a live view, and which dialog button was clicked), or a
navigation change of the focused session (with whether the new URL is a
Steam URL and whether it is a login URL). -/
inductive WEvent where
  | profileAdded (viewFound : Bool) (button : WButton)
  | urlChanged (steamOk : Bool) (loginUrl : Bool)
deriving DecidableEq

/-- One walker step (`onProfileAdded` / `onUrlChanged`), translated
clause by clause; `finishAll` is the `walkerStop` after an advance that
exhausts the list. -/
def wStep (w : Walker) : WEvent → Walker
  | .profileAdded viewFound button =>
      if ¬ w.active ∨ w.lines.length ≤ w.index then w
      else if ¬ viewFound then w
      else
        match button with
        | .stop => walkerStop w
        | .skip =>
            let w1 := { w with index := w.index + 1 }
            if w.lines.length ≤ w1.index then walkerStop w1 else w1
        | .copy => w
  | .urlChanged steamOk loginUrl =>
      if ¬ w.active ∨ w.lines.length ≤ w.index then w
      else if steamOk ∧ ¬ loginUrl then
        let w1 := { w with index := w.index + 1 }
        if w.lines.length ≤ w1.index then walkerStop w1 else w1
      else w

/-! ### Credential file parser (`parse_logpass_file`)

The file is split into physical lines by `re.split(r"[\r\n]+", raw)`;
the parser below takes that list of lines. -/

/-- Python `line.split(":", 1)` on a line known to contain a colon:
everything before the first colon, and everything after it. -/
def splitFirstColon : List Char → List Char × List Char
  | [] => ([], [])
  | c :: cs =>
      if c = ':' then ([], cs)
      else
        let r := splitFirstColon cs
        (c :: r.1, r.2)

/-- The per-line step of `parse_logpass_file`: strip, drop blank and
`#`-prefixed lines, drop lines without a colon, split at the first
colon, strip both fields, keep the pair only if both are non-empty. -/
def parseLine (ln : String) : Option (String × String) :=
  let line := pyStrip ln
  if line.data = [] then none
  else if line.data.head? = some '#' then none
  else if ':' ∉ line.data then none
  else
    let r := splitFirstColon line.data
    let lg := pyStrip (String.mk r.1)
    let pw := pyStrip (String.mk r.2)
    if lg.data ≠ [] ∧ pw.data ≠ [] then some (lg, pw) else none

/-- Source `parse_logpass_file` over the split lines. -/
def parseLogpassLines (lines : List String) : List (String × String) :=
  lines.filterMap parseLine

/-! ### Persisted config document (`saveConfig` / `loadConfig`)

The JSON layer (`json.dumps`/`json.loads`) is modelled by the syntax
tree `J`; `saveConfigJ` builds the document `saveConfig` writes and
`loadConfigJ` reads it back exactly as `loadConfig` does, including the
`str`/`bool`/`int` coercions Python applies to each field.  `int()` on a
non-numeric value raises, which surfaces as `none`. -/

/-- A JSON value. -/
inductive J where
  | jstr : String → J
  | jnum : Int → J
  | jbool : Bool → J
  | jarr : List J → J
  | jobj : List (String × J) → J
  | jnull : J

/-- Python `o.get(k, d)` on a parsed JSON object. -/
def jGetD (o : List (String × J)) (k : String) (d : J) : J :=
  (o.lookup k).getD d

/-- Python `str(x)` on a parsed JSON value (exact only on strings, which
is the only case the round trip exercises). -/
def pyStr : J → String
  | .jstr s => s
  | .jbool b => if b then "True" else "False"
  | .jnum n => toString n
  | .jnull => "None"
  | .jarr _ => "<list>"
  | .jobj _ => "<dict>"

/-- Python `bool(x)` truthiness on a parsed JSON value. -/
def pyTruthy : J → Bool
  | .jstr s => s.data ≠ []
  | .jbool b => b
  | .jnum n => n ≠ 0
  | .jnull => false
  | .jarr l => ¬ l.isEmpty
  | .jobj l => ¬ l.isEmpty

/-- Python `int(x)` on a parsed JSON value (`none` models a raised
`TypeError`/`ValueError`). -/
def pyInt : J → Option Int
  | .jnum n => some n
  | .jbool b => some (if b then 1 else 0)
  | _ => none

/-- The JSON document written by `MultiBrowser.saveConfig`. -/
def saveConfigJ (c : Cfg) : J :=
  .jobj [("profiles", .jarr (c.profiles.map J.jstr)),
         ("last_active", .jstr c.last_active),
         ("last_urls", .jobj (c.last_urls.map (fun kv => (kv.1, J.jstr kv.2)))),
         ("accounts_visible", .jbool c.accounts_visible),
         ("accounts_panel_width", .jnum c.accounts_panel_width),
         ("leftbar_width", .jnum c.leftbar_width),
         ("win_geometry", .jstr c.win_geometry)]

/-- Source `MultiBrowser.loadConfig` reading a parsed document back into the
config fields; `dW`/`dL` are the current widths used as defaults. -/
def loadConfigJ (dW dL : Int) (j : J) : Option Cfg :=
  match j with
  | .jobj o =>
      match jGetD o ("profiles") (.jarr []) with
      | .jarr ps =>
          match jGetD o ("last_urls") (.jobj []) with
          | .jobj us =>
              match pyInt (jGetD o ("accounts_panel_width") (.jnum dW)),
                    pyInt (jGetD o ("leftbar_width") (.jnum dL)) with
              | some w, some l =>
                  some { profiles := ps.map pyStr,
                         last_active := pyStr (jGetD o ("last_active") (.jstr (""))),
                         last_urls := us.map (fun kv => (kv.1, pyStr kv.2)),
                         accounts_visible := pyTruthy (jGetD o ("accounts_visible") (.jbool false)),
                         accounts_panel_width := w,
                         leftbar_width := l,
                         win_geometry :=
                           match jGetD o ("win_geometry") .jnull with
                           | .jstr g => g
                           | _ => "" }
              | _, _ => none
          | _ => none
      | _ => none
  | _ => none

/-! ### Proof-layer definitions: invariants, measures and concrete
states used by the claims -/

/-- Left inverse of the digit rendering: read decimal digits back. -/
def digitsVal (cs : List Char) : Nat :=
  cs.foldl (fun acc c => acc * 10 + (c.toNat - 48)) 0

/-- Structural invariant of the registry: the profile list mirrors the
live-session keys, names are unique and non-empty, storage directories
are unique, and with at least one live session the focus pointer names a
live session. -/
def RegInv (s : AppState) : Prop :=
  s.profiles = s.browsers ∧ s.browsers.Nodup ∧ "" ∉ s.browsers ∧
  s.diskDirs.Nodup ∧ (s.browsers ≠ [] → s.currentName ∈ s.browsers)

/-- The state reached by the confirmed branch of `deleteProfile` just
before picking the next active profile is persisted and switched to. -/
def delCore (s : AppState) (name : String) (rm : Bool) : AppState :=
  { s with browsers := s.browsers.erase name,
           popups := s.popups.filter (fun p => p.owner ≠ name),
           diskDirs := if rm then (addDir s.diskDirs (profileDir name)).erase (profileDir name)
                       else addDir s.diskDirs (profileDir name),
           warnLog := if rm then s.warnLog
                      else s.warnLog ++ ["Failed to remove profile dir: " ++ profileDir name],
           profiles := s.profiles.erase name,
           lastUrls := s.lastUrls.filter (fun kv => kv.1 ≠ name),
           lastActive := match s.profiles.erase name with | [] => "" | a :: _ => a }

/-- A popup is visible exactly when its owner is the focused session. -/
def PopupInv (s : AppState) : Prop :=
  ∀ p ∈ s.popups, p.visible = (p.owner == s.currentName)

/-- The cooldown timestamp a detector consults. -/
def detStamp (s : HState) : Det → Int
  | .console => s.lastFixMs
  | .crash => s.lastRenderReloadMs
  | .blank => s.lastBlankFixMs

/-- Number of reloads issued by the blank-render detector in a log. -/
def blankCount (log : List REntry) : Nat :=
  log.countP (fun p => p.det == Det.blank)

/-- Whether an event is an HTML-extraction delivery whose content is
judged non-blank (the only event that resets `_blank_fix_tries`). -/
def isHtmlReset : HEvent → Bool
  | .htmlResult _ _ html => decide (pyStrip html ≠ "" ∧ 50 ≤ (pyStrip html).length)
  | _ => false

/-! ### Concrete traces and states used by the claims -/

/-- The empty HTML document text. -/
def emptyHtml : String := ""

/-- Trace: a fatal console message at t=10000, a renderer crash at
t=11000, both while the session is focused. -/
def c1trace : List HEvent :=
  [.console 10000 sessA msgChunk, .renderCrash 11000 sessA]

/-- Trace: a healthcheck starts while focused, the blank-check timer and
its script-evaluation result are delivered after focus moved away. -/
def c2trace : List HEvent :=
  [.healthcheck 0 sessA urlMain, .postBlankJs sessB, .jsResult 6000 sessB (some true)]

/-- Trace: one blank HTML check (reload, counter 1), then a delivered
script-evaluation check that finds the page non-blank. -/
def c4trace : List HEvent :=
  [.healthcheck 0 sessA urlMain, .htmlResult 6000 sessA emptyHtml,
   .postBlankJs sessA, .jsResult 6010 sessA (some false)]

/-- Trace: four consecutive blank HTML checks, each past the cooldown. -/
def c4budgetTrace : List HEvent :=
  [.healthcheck 0 sessA urlMain, .htmlResult 6000 sessA emptyHtml,
   .healthcheck 11000 sessA urlMain, .htmlResult 12000 sessA emptyHtml,
   .healthcheck 17000 sessA urlMain, .htmlResult 18000 sessA emptyHtml,
   .healthcheck 23000 sessA urlMain, .htmlResult 24000 sessA emptyHtml]

/-- State after adding one profile and then deleting it (the last one). -/
def c3state : AppState := deleteProfile (addAccount initState) (steamName 1) true true

/-- State with two profiles, one popup each, focus on the second. -/
def c5state : AppState :=
  createPopup (addAccount (createPopup (addAccount initState) (steamName 1))) (steamName 2)

/-- The focus-consistency property claimed for every reachable state:
with zero live sessions no session is focused (empty pointer), otherwise
the pointer names a live session. -/
def FocusOK (s : AppState) : Prop :=
  (s.browsers = [] → s.currentName = "") ∧
  (s.browsers ≠ [] → s.currentName ∈ s.browsers)

/-! ## Proof layer -/

/-! ### The generated profile names `f"Steam {n}"` are pairwise distinct -/

theorem digitChr_toNat {k : Nat} (h : k < 10) : (digitChr k).toNat - 48 = k := by
  interval_cases k <;> rfl

theorem digitsVal_append_digit (xs : List Char) (c : Char) :
    digitsVal (xs ++ [c]) = digitsVal xs * 10 + (c.toNat - 48) := by
  simp [digitsVal, List.foldl_append]

theorem natReprAux_val : ∀ (fuel n : Nat), n < fuel → digitsVal (natReprAux fuel n) = n := by
  intro fuel
  induction fuel with
  | zero => intro n h; omega
  | succ fuel ih =>
      intro n h
      by_cases h10 : n < 10
      · have hk := digitChr_toNat h10
        simp only [natReprAux, if_pos h10, digitsVal, List.foldl]
        omega
      · have h1 : n / 10 < n := Nat.div_lt_self (by omega) (by omega)
        have hrec := ih (n / 10) (by omega)
        have hmod : (digitChr (n % 10)).toNat - 48 = n % 10 :=
          digitChr_toNat (Nat.mod_lt _ (by omega))
        have hdm := Nat.div_add_mod n 10
        simp only [natReprAux, if_neg h10, digitsVal_append_digit, hrec, hmod]
        omega

theorem natRepr_inj {m n : Nat} (h : natRepr m = natRepr n) : m = n := by
  have hd : natReprAux (m + 1) m = natReprAux (n + 1) n := congrArg String.data h
  have hm := natReprAux_val (m + 1) m (Nat.lt_succ_self m)
  have hn := natReprAux_val (n + 1) n (Nat.lt_succ_self n)
  rw [← hm, ← hn, hd]

theorem steamName_inj {m n : Nat} (h : steamName m = steamName n) : m = n := by
  have hd : ("Steam ").data ++ (natRepr m).data = ("Steam ").data ++ (natRepr n).data :=
    congrArg String.data h
  have h2 : (natRepr m).data = (natRepr n).data := List.append_cancel_left hd
  exact natRepr_inj (congrArg String.mk h2)

theorem steamName_ne_empty (n : Nat) : steamName n ≠ "" := by
  intro h
  have hd : ("Steam ").data ++ (natRepr n).data = ([] : List Char) := congrArg String.data h
  have h2 : ("Steam ").data = ([] : List Char) := (List.append_eq_nil.mp hd).1
  exact absurd h2 (by decide)

/-- Pigeonhole: among `Steam 1 .. Steam (length + 1)` some name is not in
the registry. -/
theorem exists_steam_free (bs : List String) :
    ∃ k, k ∈ List.range' 1 (bs.length + 1) ∧ steamName k ∉ bs := by
  by_contra hcon
  push_neg at hcon
  have hsub : (List.range' 1 (bs.length + 1)).map steamName ⊆ bs := by
    intro x hx
    obtain ⟨k, hk, rfl⟩ := List.mem_map.mp hx
    exact hcon k hk
  have hinj : Function.Injective steamName := fun a b h => steamName_inj h
  have hnd : ((List.range' 1 (bs.length + 1)).map steamName).Nodup :=
    List.Nodup.map hinj (List.nodup_range' 1 (bs.length + 1))
  have hle := (hnd.subperm hsub).length_le
  simp at hle

/-- The search loop of `nextSteamName` finds the first free name,
provided a free name exists in the scanned range. -/
theorem nextSteamAux_spec (bs : List String) :
    ∀ (fuel n : Nat), (∃ k, k ∈ List.range' n fuel ∧ steamName k ∉ bs) →
      steamName (nextSteamAux bs fuel n) ∉ bs ∧ n ≤ nextSteamAux bs fuel n ∧
      ∀ j, n ≤ j → j < nextSteamAux bs fuel n → steamName j ∈ bs := by
  intro fuel
  induction fuel with
  | zero =>
      intro n h
      obtain ⟨k, hk, _⟩ := h
      simp [List.range'] at hk
  | succ fuel ih =>
      intro n h
      by_cases hmem : steamName n ∈ bs
      · have h' : ∃ k, k ∈ List.range' (n + 1) fuel ∧ steamName k ∉ bs := by
          obtain ⟨k, hk, hfree⟩ := h
          rw [List.range'_succ] at hk
          rcases List.mem_cons.mp hk with rfl | hk
          · exact absurd hmem hfree
          · exact ⟨k, hk, hfree⟩
        obtain ⟨ha, hb, hc⟩ := ih (n + 1) h'
        rw [show nextSteamAux bs (fuel + 1) n = nextSteamAux bs fuel (n + 1) by
          simp [nextSteamAux, hmem]]
        refine ⟨ha, by omega, fun j hj hj2 => ?_⟩
        rcases Nat.eq_or_lt_of_le hj with rfl | hj
        · exact hmem
        · exact hc j hj hj2
      · rw [show nextSteamAux bs (fuel + 1) n = n by simp [nextSteamAux, hmem]]
        exact ⟨hmem, Nat.le_refl n, fun j hj hj2 => by omega⟩

/-- Lemma: `nextSteamName` returns the smallest positive `n` with
`f"Steam {n}"` not a live session. -/
theorem nextSteamNum_spec (bs : List String) :
    steamName (nextSteamNum bs) ∉ bs ∧ 1 ≤ nextSteamNum bs ∧
    ∀ j, 1 ≤ j → j < nextSteamNum bs → steamName j ∈ bs :=
  nextSteamAux_spec bs (bs.length + 1) 1 (exists_steam_free bs)

theorem profileDir_inj {a b : String} (h : profileDir a = profileDir b) : a = b := by
  have hd : (appDataRoot ++ "/profiles/").data ++ a.data
      = (appDataRoot ++ "/profiles/").data ++ b.data := congrArg String.data h
  have h2 : a.data = b.data := List.append_cancel_left hd
  exact congrArg String.mk h2

/-! ### Registry invariants -/

theorem addDir_nodup {dirs : List String} (h : dirs.Nodup) (d : String) :
    (addDir dirs d).Nodup := by
  by_cases hd : d ∈ dirs
  · simpa [addDir, hd] using h
  · simp [addDir, hd, List.nodup_append, h]

theorem switchAccount_eq_of_mem {s : AppState} {acc : String} (h : acc ∈ s.browsers) :
    switchAccount s acc =
      { s with currentName := acc, lastActive := acc,
               popups := s.popups.map (fun p => { p with visible := p.owner == acc }),
               savedConfig := some ⟨s.profiles, acc, s.lastUrls, false, 320, 160, ""⟩ } := by
  simp [switchAccount, h, showPopupsFor, saveConfig, mkCfg]

theorem switchAccount_eq_of_not_mem {s : AppState} {acc : String} (h : acc ∉ s.browsers) :
    switchAccount s acc = s := by
  simp [switchAccount, h]

theorem addAccount_eq (s : AppState) :
    addAccount s =
      { s with browsers := s.browsers ++ [nextSteamName s.browsers],
               diskDirs := addDir s.diskDirs (profileDir (nextSteamName s.browsers)),
               currentName := nextSteamName s.browsers,
               lastActive := nextSteamName s.browsers,
               popups := s.popups.map
                 (fun p => { p with visible := p.owner == nextSteamName s.browsers }),
               profiles := if nextSteamName s.browsers ∈ s.profiles then s.profiles
                           else s.profiles ++ [nextSteamName s.browsers],
               savedConfig := some ⟨(if nextSteamName s.browsers ∈ s.profiles then s.profiles
                           else s.profiles ++ [nextSteamName s.browsers]),
                 nextSteamName s.browsers, s.lastUrls, false, 320, 160, ""⟩ } := by
  have hm : nextSteamName s.browsers ∈ s.browsers ++ [nextSteamName s.browsers] := by simp
  simp only [addAccount, createProfile, if_pos rfl]
  rw [switchAccount_eq_of_mem hm]
  by_cases hp : nextSteamName s.browsers ∈ s.profiles <;>
    simp [hp, saveConfig, mkCfg]

theorem switchAccount_regInv {s : AppState} (h : RegInv s) (acc : String) :
    RegInv (switchAccount s acc) := by
  by_cases hm : acc ∈ s.browsers
  · obtain ⟨h1, h2, h3, h4, _⟩ := h
    rw [switchAccount_eq_of_mem hm]
    exact ⟨h1, h2, h3, h4, fun _ => hm⟩
  · rwa [switchAccount_eq_of_not_mem hm]

theorem addAccount_regInv {s : AppState} (h : RegInv s) : RegInv (addAccount s) := by
  obtain ⟨h1, h2, h3, h4, _⟩ := h
  have hfresh : nextSteamName s.browsers ∉ s.browsers := (nextSteamNum_spec s.browsers).1
  have hne : nextSteamName s.browsers ≠ "" := steamName_ne_empty (nextSteamNum s.browsers)
  rw [addAccount_eq]
  have hp : nextSteamName s.browsers ∉ s.profiles := h1 ▸ hfresh
  refine ⟨?_, ?_, ?_, addDir_nodup h4 _, ?_⟩
  · simp [hp, h1, hfresh]
  · simp [List.nodup_append, h2, hfresh]
  · simp only [List.mem_append, List.mem_singleton]
    rintro (hc | hc)
    · exact h3 hc
    · exact hne hc.symm
  · intro _
    simp

theorem deleteProfile_eq {s : AppState} {name : String} (hmem : name ∈ s.browsers) (rm : Bool) :
    deleteProfile s name true rm =
      (if (match s.profiles.erase name with | [] => "" | a :: _ => a) ≠ ""
       then switchAccount (saveConfig (delCore s name rm))
              (match s.profiles.erase name with | [] => "" | a :: _ => a)
       else saveConfig (delCore s name rm)) := by
  cases rm <;> simp [deleteProfile, hmem, delCore, saveConfig, mkCfg]

theorem deleteProfile_nop₁ {s : AppState} {name : String} (hmem : name ∉ s.browsers)
    (cf rm : Bool) : deleteProfile s name cf rm = s := by
  simp [deleteProfile, hmem]

theorem deleteProfile_nop₂ (s : AppState) (name : String) (rm : Bool) :
    deleteProfile s name false rm = s := by
  simp [deleteProfile]

theorem deleteProfile_regInv {s : AppState} (h : RegInv s) (name : String) (cf rm : Bool) :
    RegInv (deleteProfile s name cf rm) := by
  by_cases hmem : name ∈ s.browsers
  case neg => rwa [deleteProfile_nop₁ hmem]
  cases cf with
  | false => rwa [deleteProfile_nop₂]
  | true =>
    obtain ⟨h1, h2, h3, h4, _⟩ := h
    have hbe : s.profiles.erase name = s.browsers.erase name := by rw [h1]
    have g1 : (saveConfig (delCore s name rm)).profiles
        = (saveConfig (delCore s name rm)).browsers := hbe
    have g2 : (saveConfig (delCore s name rm)).browsers.Nodup := h2.erase name
    have g3 : "" ∉ (saveConfig (delCore s name rm)).browsers :=
      fun hc => h3 (List.mem_of_mem_erase hc)
    have g4 : (saveConfig (delCore s name rm)).diskDirs.Nodup := by
      cases rm
      · exact addDir_nodup h4 _
      · exact (addDir_nodup h4 _).erase _
    rw [deleteProfile_eq hmem]
    cases hP : s.profiles.erase name with
    | nil =>
        simp only [hP, ne_eq, not_true_eq_false, if_false, ite_false]
        refine ⟨g1, g2, g3, g4, fun hc => ?_⟩
        have hb0 : s.browsers.erase name = [] := by rw [← hbe, hP]
        exact absurd (by simp [saveConfig, delCore, hb0]) hc
    | cons a t =>
        have ha : a ∈ s.profiles.erase name := by rw [hP]; exact List.mem_cons_self a t
        have hab : a ∈ s.browsers := List.mem_of_mem_erase (hbe ▸ ha)
        have hane : a ≠ "" := fun hc => h3 (hc ▸ hab)
        have hamem : a ∈ (saveConfig (delCore s name rm)).browsers := by
          simpa [saveConfig, delCore, ← hbe] using ha
        simp only [hP, ne_eq, hane, not_false_eq_true, if_true, ite_true]
        rw [switchAccount_eq_of_mem hamem]
        exact ⟨g1, g2, g3, g4, fun _ => hamem⟩

theorem createPopup_regInv {s : AppState} (h : RegInv s) (owner : String) :
    RegInv (createPopup s owner) := h

theorem closePopupOp_regInv {s : AppState} (h : RegInv s) (pid : Nat) :
    RegInv (closePopupOp s pid) := h

/-- Every reachable state satisfies the registry invariant. -/
theorem reach_regInv {s : AppState} (h : Reach s) : RegInv s := by
  induction h with
  | init => exact ⟨rfl, List.nodup_nil, by simp [initState], List.nodup_nil, by simp [initState]⟩
  | add _ ih => exact addAccount_regInv ih
  | switch acc _ ih => exact switchAccount_regInv ih acc
  | del name cf rm _ ih => exact deleteProfile_regInv ih name cf rm
  | popup owner hmem _ ih => exact createPopup_regInv ih owner
  | closePopup pid _ ih => exact closePopupOp_regInv ih pid

/-! ### Popup visibility invariant -/

theorem string_beq_comm (a b : String) : (a == b) = (b == a) := by
  by_cases h : a = b
  · subst h; rfl
  · rw [beq_eq_false_iff_ne.mpr h, beq_eq_false_iff_ne.mpr (Ne.symm h)]

theorem showPopups_popupInv (s : AppState) (acc : String)
    (hcur : s.currentName = acc) :
    PopupInv { s with popups := s.popups.map (fun p => { p with visible := p.owner == acc }) } := by
  intro p hp
  simp only [List.mem_map] at hp
  obtain ⟨q, _, rfl⟩ := hp
  simp [hcur]

/-- Every reachable state satisfies the popup-visibility invariant. -/
theorem reach_popupInv {s : AppState} (h : Reach s) : PopupInv s := by
  induction h with
  | init => intro p hp; simp [initState] at hp
  | add s ih =>
      rename_i t
      rw [addAccount_eq]
      intro p hp
      simp only [List.mem_map] at hp
      obtain ⟨q, _, rfl⟩ := hp
      simp
  | switch acc _ ih =>
      rename_i t _
      by_cases hm : acc ∈ t.browsers
      · rw [switchAccount_eq_of_mem hm]
        intro p hp
        simp only [List.mem_map] at hp
        obtain ⟨q, _, rfl⟩ := hp
        simp
      · rwa [switchAccount_eq_of_not_mem hm]
  | del name cf rm _ ih =>
      rename_i t _
      by_cases hmem : name ∈ t.browsers
      case neg => rwa [deleteProfile_nop₁ hmem]
      cases cf with
      | false => rwa [deleteProfile_nop₂]
      | true =>
          have hfilter : PopupInv (saveConfig (delCore t name rm)) := by
            intro p hp
            simp only [saveConfig, delCore, List.mem_filter] at hp
            exact ih p hp.1
          rw [deleteProfile_eq hmem]
          set a := (match t.profiles.erase name with | [] => "" | a :: _ => a) with ha
          by_cases hane : a ≠ ""
          · simp only [if_pos hane]
            by_cases hm : a ∈ (saveConfig (delCore t name rm)).browsers
            · rw [switchAccount_eq_of_mem hm]
              intro p hp
              simp only [List.mem_map] at hp
              obtain ⟨q, _, rfl⟩ := hp
              simp
            · rwa [switchAccount_eq_of_not_mem hm]
          · simp only [if_neg hane]
            exact hfilter
  | popup owner hmem _ ih =>
      rename_i t _
      intro p hp
      simp only [createPopup, List.mem_append, List.mem_singleton] at hp
      rcases hp with hp | rfl
      · exact ih p hp
      · exact string_beq_comm t.currentName owner
  | closePopup pid _ ih =>
      rename_i t _
      intro p hp
      simp only [closePopupOp, List.mem_filter] at hp
      exact ih p hp.1

/-! ### Health-monitor trace lemmas -/

theorem hStep_stamp_mono (my : String) (s : HState) (e : HEvent) (d : Det) :
    detStamp s d ≤ detStamp (hStep my s e).1 d := by
  cases e <;> cases d <;> simp only [hStep] <;> split_ifs <;>
    simp [detStamp] <;> omega

theorem hStep_emit {my : String} {s : HState} {e : HEvent} {p : REntry}
    (h : (hStep my s e).2 = some p) :
    detStamp s p.det + 5000 ≤ p.time ∧ detStamp (hStep my s e).1 p.det = p.time := by
  cases e <;> simp only [hStep] at h ⊢ <;> split_ifs at h ⊢ <;> dsimp only at h ⊢ <;>
    (obtain rfl : p = _ := (Option.some.inj h).symm
     refine ⟨?_, ?_⟩ <;> simp [detStamp] <;> omega)

/-- Every reload in a trace is issued at least 5000ms after the
cooldown timestamp its detector held at the start of the trace. -/
theorem hRun_emitted_ge (my : String) (evts : List HEvent) :
    ∀ (s : HState), ∀ p ∈ (hRun my s evts).2, detStamp s p.det + 5000 ≤ p.time := by
  induction evts with
  | nil => intro s p hp; simp [hRun] at hp
  | cons e es ih =>
      intro s p hp
      simp only [hRun] at hp
      rcases List.mem_append.mp hp with hp | hp
      · cases hr : (hStep my s e).2 with
        | none => simp [hr] at hp
        | some q =>
            rw [hr] at hp
            simp only [Option.toList_some, List.mem_singleton] at hp
            subst hp
            exact (hStep_emit hr).1
      · have h1 := ih (hStep my s e).1 p hp
        have h2 := hStep_stamp_mono my s e p.det
        omega

/-- Along any trace, two reloads issued by the same detector are at
least 5000ms apart. -/
theorem hRun_gapOK (my : String) (evts : List HEvent) :
    ∀ (s : HState),
      List.Pairwise (fun a b => a.det = b.det → a.time + 5000 ≤ b.time) (hRun my s evts).2 := by
  induction evts with
  | nil => intro s; simp [hRun]
  | cons e es ih =>
      intro s
      simp only [hRun]
      cases hr : (hStep my s e).2 with
      | none => simpa using ih (hStep my s e).1
      | some q =>
          simp only [Option.toList_some, List.singleton_append, List.pairwise_cons]
          refine ⟨fun b hb hdet => ?_, ih (hStep my s e).1⟩
          have h1 := (hStep_emit hr).2
          have h2 := hRun_emitted_ge my es (hStep my s e).1 b hb
          rw [hdet] at h1
          omega

/-! ### Blank-render retry budget -/

theorem hStep_tries (my : String) (s : HState) (e : HEvent)
    (hnr : isHtmlReset e = false) :
    ((hStep my s e).1.blankFixTries = s.blankFixTries ∧
       ∀ q, (hStep my s e).2 = some q → q.det ≠ Det.blank) ∨
    ((hStep my s e).1.blankFixTries = s.blankFixTries + 1 ∧ s.blankFixTries < 3 ∧
       ∃ q, (hStep my s e).2 = some q ∧ q.det = Det.blank) := by
  cases e <;> simp only [hStep, isHtmlReset, decide_eq_false_iff_not] at hnr ⊢ <;>
    split_ifs <;> simp_all

/-- Starting from at most 3 used retries, a stretch of the trace with no
non-blank HTML check issues at most `3 - used` blank reloads. -/
theorem hRun_blankBudget (my : String) (evts : List HEvent) :
    ∀ s : HState, s.blankFixTries ≤ 3 →
      (∀ e ∈ evts, isHtmlReset e = false) →
      blankCount (hRun my s evts).2 + s.blankFixTries ≤ 3 := by
  induction evts with
  | nil => intro s h3 _; simpa [hRun, blankCount] using h3
  | cons e es ih =>
      intro s h3 hnr
      have hne := hnr e (List.mem_cons_self e es)
      have hrest : ∀ e' ∈ es, isHtmlReset e' = false :=
        fun e' he' => hnr e' (List.mem_cons_of_mem e he')
      simp only [hRun, blankCount, List.countP_append]
      rcases hStep_tries my s e hne with ⟨heq, hdet⟩ | ⟨heq, hlt, q, hq, hqdet⟩
      · have hcnt : List.countP (fun p => p.det == Det.blank) (hStep my s e).2.toList = 0 := by
          cases hr : (hStep my s e).2 with
          | none => simp
          | some q => simpa [List.countP_cons] using hdet q hr
        have hih := ih (hStep my s e).1 (by omega) hrest
        simp only [blankCount] at hih
        omega
      · have hcnt : List.countP (fun p => p.det == Det.blank) (hStep my s e).2.toList = 1 := by
          simp [hq, List.countP_cons, hqdet]
        have hih := ih (hStep my s e).1 (by omega) hrest
        simp only [blankCount] at hih
        omega

/-! ### Profile-deletion effects -/

theorem lookup_filter_ne (l : List (String × String)) (name : String) :
    (l.filter (fun kv => kv.1 ≠ name)).lookup name = none := by
  induction l with
  | nil => rfl
  | cons kv t ih =>
      by_cases h : kv.1 = name
      · simpa [List.filter_cons, h] using ih
      · have hbeq : (name == kv.1) = false := beq_eq_false_iff_ne.mpr (Ne.symm h)
        have hf : List.filter (fun kv => decide (kv.1 ≠ name)) (kv :: t)
            = kv :: List.filter (fun kv => decide (kv.1 ≠ name)) t := by
          simp [List.filter_cons, h]
        rw [hf]
        cases kv with
        | mk k v =>
            simp only [List.lookup]
            rw [show (name == k) = false from hbeq]
            exact ih

/-- Field-level description of a confirmed `deleteProfile` on a
reachable state. -/
theorem deleteProfile_fields {s : AppState} {name : String} (rm : Bool)
    (hr : Reach s) (hmem : name ∈ s.browsers) :
    (deleteProfile s name true rm).profiles = s.profiles.erase name ∧
    (deleteProfile s name true rm).browsers = s.browsers.erase name ∧
    (deleteProfile s name true rm).lastUrls = s.lastUrls.filter (fun kv => kv.1 ≠ name) ∧
    (∀ p ∈ (deleteProfile s name true rm).popups, p.owner ≠ name) ∧
    (deleteProfile s name true rm).savedConfig
        = some ⟨s.profiles.erase name, (deleteProfile s name true rm).lastActive,
                s.lastUrls.filter (fun kv => kv.1 ≠ name), false, 320, 160, ""⟩ ∧
    (deleteProfile s name true rm).diskDirs = (delCore s name rm).diskDirs ∧
    (deleteProfile s name true rm).warnLog = (delCore s name rm).warnLog := by
  obtain ⟨h1, h2, h3, _, _⟩ := reach_regInv hr
  have hbe : s.profiles.erase name = s.browsers.erase name := by rw [h1]
  have hpfilter : ∀ p ∈ (s.popups.filter (fun p => p.owner ≠ name)), p.owner ≠ name := by
    intro p hp
    have := (List.mem_filter.mp hp).2
    simpa using this
  rw [deleteProfile_eq hmem]
  by_cases hcond : (match s.profiles.erase name with | [] => "" | a :: _ => a) ≠ ""
  · obtain ⟨a, t, hP⟩ : ∃ a t, s.profiles.erase name = a :: t := by
      cases hE : s.profiles.erase name with
      | nil => rw [hE] at hcond; simp at hcond
      | cons a t => exact ⟨a, t, rfl⟩
    have ha : a ∈ s.profiles.erase name := by rw [hP]; exact List.mem_cons_self a t
    have hamem : (match s.profiles.erase name with | [] => "" | a :: _ => a)
        ∈ (saveConfig (delCore s name rm)).browsers := by
      rw [hP]
      simpa [saveConfig, delCore] using hbe ▸ ha
    rw [if_pos hcond, switchAccount_eq_of_mem hamem]
    refine ⟨rfl, rfl, rfl, ?_, rfl, rfl, rfl⟩
    intro p hp
    simp only [List.mem_map] at hp
    obtain ⟨q, hq, rfl⟩ := hp
    exact hpfilter q hq
  · rw [if_neg hcond]
    refine ⟨rfl, rfl, rfl, ?_, rfl, rfl, rfl⟩
    intro p hp
    exact hpfilter p hp

/-! ### Claims -/

/-- C1, counterexample: the source keeps a separate cooldown timestamp
per detector (`Page.last_fix_ms`, `_lastRenderReloadMs`,
`_last_blank_fix_ms`), so a console-detector reload at t=10000 is
followed by a crash-detector reload at t=11000 on the same focused
session — two auto-reloads only 1000ms < 5000ms apart, contradicting a
single shared per-session cooldown. -/
theorem c1_counterexample :
    (hRun sessA hInit c1trace).2
      = [⟨10000, sessA, .console⟩, ⟨11000, sessA, .crash⟩] ∧
    ¬ (∀ a b : REntry, a ∈ (hRun sessA hInit c1trace).2 →
        b ∈ (hRun sessA hInit c1trace).2 → a.time < b.time → a.time + 5000 ≤ b.time) := by
  constructor
  · decide
  · intro h
    have := h ⟨10000, sessA, .console⟩ ⟨11000, sessA, .crash⟩ (by decide) (by decide) (by decide)
    exact absurd this (by decide)

/-- C1, amended: each detector enforces its own 5000ms cooldown — along
any event trace of a session, two reloads issued by the same detector
are at least 5000ms apart (the two blank-check paths share one
timestamp and count as one detector) — but no cooldown is shared across
different detectors. -/
theorem c1_per_detector_cooldown (my : String) (s : HState) (evts : List HEvent) :
    List.Pairwise (fun a b => a.det = b.det → a.time + 5000 ≤ b.time) (hRun my s evts).2 :=
  hRun_gapOK my evts s

/-- C1 witness: the per-detector gap property on the concrete trace. -/
theorem c1_per_detector_cooldown_witness :
    List.Pairwise (fun a b => a.det = b.det → a.time + 5000 ≤ b.time)
      (hRun sessA hInit c1trace).2 :=
  c1_per_detector_cooldown sessA hInit c1trace

/-- C2, counterexample: a healthcheck starts while session A is focused;
the script-evaluation result arrives after focus moved to B, and
`_maybeReloadOnBlank` issues the reload anyway (it never re-checks
focus): the log records a reload delivered while `current_name` was B. -/
theorem c2_counterexample :
    (hRun sessA hInit c2trace).2 = [⟨6000, sessB, .blank⟩] ∧ sessB ≠ sessA := by
  constructor <;> decide

/-- C2, amended: the detection entry points — the console-message
handler, the renderer-crash handler and the healthcheck entry — do
re-check focus and are complete no-ops on an unfocused session; the
HTML-extraction and script-evaluation result callbacks do not re-check,
so a session defocused between healthcheck start and callback delivery
can still receive a reload. -/
theorem c2_entry_focus_guard (my : String) (s : HState) (now : Int)
    (cur msg url : String) (h : cur ≠ my) :
    hStep my s (.console now cur msg) = (s, none) ∧
    hStep my s (.renderCrash now cur) = (s, none) ∧
    hStep my s (.healthcheck now cur url) = (s, none) := by
  refine ⟨?_, ?_, ?_⟩ <;> simp only [hStep] <;> split_ifs <;> simp_all

/-- C2 witness: the three entry points ignore events for session B
while session A is the view's profile. -/
theorem c2_entry_focus_guard_witness :
    hStep sessB hInit (.console 0 sessA msgChunk) = (hInit, none) ∧
    hStep sessB hInit (.renderCrash 0 sessA) = (hInit, none) ∧
    hStep sessB hInit (.healthcheck 0 sessA urlMain) = (hInit, none) :=
  c2_entry_focus_guard sessB hInit 0 sessA msgChunk urlMain (by decide)

/-- C3, counterexample: `deleteProfile` of the last remaining (and
focused) profile leaves `currentName` holding the deleted name instead
of clearing it: the reachable state after add-then-delete has zero live
sessions but a non-empty focus pointer. -/
theorem c3_counterexample :
    Reach c3state ∧ ¬ FocusOK c3state ∧
    c3state.browsers = [] ∧ c3state.currentName = steamName 1 := by
  refine ⟨Reach.del (steamName 1) true true (Reach.add Reach.init), ?_, by decide, by decide⟩
  intro h
  have h1 : c3state.browsers = [] := by decide
  have := h.1 h1
  have h2 : c3state.currentName = steamName 1 := by decide
  rw [h2] at this
  exact steamName_ne_empty 1 this

/-- C3, amended: at most one session is focused (the focus pointer is a
single name), and whenever at least one session is live the pointer
names a live session — including after deleting the focused profile
while others remain; but after deleting the last remaining profile the
pointer is not cleared and retains the deleted profile's name. -/
theorem c3_focus_names_live_session {s : AppState} (h : Reach s) :
    s.browsers ≠ [] → s.currentName ∈ s.browsers :=
  (reach_regInv h).2.2.2.2

/-- C3 witness: in the reachable one-profile state the focus pointer
names the live session. -/
theorem c3_focus_names_live_session_witness :
    (addAccount initState).currentName ∈ (addAccount initState).browsers :=
  c3_focus_names_live_session (Reach.add Reach.init) (by decide)

/-- C4, counterexample: after one blank HTML check (counter = 1), a
delivered script-evaluation check finds the page non-blank, yet
`_maybeReloadOnBlank` has no reset branch: the retry counter stays at 1
instead of being reset to 0 as claimed for "either blank-check path". -/
theorem c4_counterexample :
    (hRun sessA hInit c4trace).1.blankFixTries = 1 ∧
    (hRun sessA hInit (c4trace.take 3)).1.pendingJs = 1 ∧
    (hRun sessA hInit (c4trace.take 3)).1.blankFixTries = 1 := by
  refine ⟨by decide, by decide, by decide⟩

/-- C4, amended: the blank-render detector issues at most 3 corrective
reloads while the page keeps being judged blank (a 4th consecutive
blank result produces no reload), and the retry counter is reset to
zero only by the HTML-extraction path finding the page non-blank — the
script-evaluation path never resets it. -/
theorem c4_blank_retry_budget (my : String) (s : HState) (evts : List HEvent)
    (h3 : s.blankFixTries ≤ 3)
    (hnr : ∀ e ∈ evts, isHtmlReset e = false) :
    blankCount (hRun my s evts).2 + s.blankFixTries ≤ 3 ∧
    (∀ (now : Int) (cur html : String), s.pendingHtml ≠ 0 →
        isHtmlReset (.htmlResult now cur html) = true →
        (hStep my s (.htmlResult now cur html)).1.blankFixTries = 0) := by
  refine ⟨hRun_blankBudget my evts s h3 hnr, ?_⟩
  intro now cur html hpend hreset
  simp only [isHtmlReset, decide_eq_true_eq] at hreset
  simp [hStep, hpend, hreset]

/-- C4 witness: four consecutive blank checks yield at most 3 reloads. -/
theorem c4_blank_retry_budget_witness :
    blankCount (hRun sessA hInit c4budgetTrace).2 + hInit.blankFixTries ≤ 3 :=
  (c4_blank_retry_budget sessA hInit c4budgetTrace (by decide) (by decide)).1

/-- C5: in every reachable state a popup is visible iff its owner is the
focused session, and `createWindow` registers a new popup shown iff its
owner is focused at creation time. -/
theorem c5_popup_visibility :
    (∀ s : AppState, Reach s → PopupInv s) ∧
    (∀ (s : AppState) (owner : String),
        (createPopup s owner).popups
          = s.popups ++ [⟨owner, s.nextPopupId, s.currentName == owner⟩]) :=
  ⟨fun _ h => reach_popupInv h, fun _ _ => rfl⟩

/-- C5 witness: in the two-session two-popup state focused on
`Steam 2`, the popup owned by `Steam 1` is hidden, as the invariant
instantiates. -/
theorem c5_popup_visibility_witness :
    (Popup.mk (steamName 1) 0 false).visible
      = ((Popup.mk (steamName 1) 0 false).owner == c5state.currentName) :=
  c5_popup_visibility.1 c5state
    (Reach.popup (steamName 2) (by decide)
      (Reach.add (Reach.popup (steamName 1) (by decide) (Reach.add Reach.init))))
    (Popup.mk (steamName 1) 0 false) (by decide)

/-- C6: a confirmed deletion of a live profile removes it from the
in-memory and persisted profile lists and the URL map, closes all its
popups, and attempts to delete its storage directory; an `rmtree`
failure only appends a warning to the log and does not roll back any of
the removals (all conclusions hold for both values of `rm`). -/
theorem c6_deleteProfile_effects (s : AppState) (name : String) (rm : Bool)
    (hr : Reach s) (hmem : name ∈ s.browsers) :
    name ∉ (deleteProfile s name true rm).profiles ∧
    name ∉ (deleteProfile s name true rm).browsers ∧
    (deleteProfile s name true rm).lastUrls.lookup name = none ∧
    (∀ p ∈ (deleteProfile s name true rm).popups, p.owner ≠ name) ∧
    (deleteProfile s name true rm).savedConfig.isSome = true ∧
    (∀ cfg ∈ (deleteProfile s name true rm).savedConfig,
        name ∉ cfg.profiles ∧ cfg.last_urls.lookup name = none) ∧
    (rm = true → profileDir name ∉ (deleteProfile s name true rm).diskDirs) ∧
    (rm = false → (deleteProfile s name true rm).warnLog
        = s.warnLog ++ ["Failed to remove profile dir: " ++ profileDir name]) := by
  obtain ⟨h1, h2, _, h4, _⟩ := reach_regInv hr
  obtain ⟨hf1, hf2, hf3, hf4, hf5, hf6, hf7⟩ := deleteProfile_fields rm hr hmem
  have hndp : s.profiles.Nodup := h1 ▸ h2
  have hnp : name ∉ s.profiles.erase name := fun hc =>
    absurd rfl ((List.Nodup.mem_erase_iff hndp).mp hc).1
  have hnb : name ∉ s.browsers.erase name := fun hc =>
    absurd rfl ((List.Nodup.mem_erase_iff h2).mp hc).1
  refine ⟨hf1 ▸ hnp, hf2 ▸ hnb, ?_, hf4, ?_, ?_, ?_, ?_⟩
  · rw [hf3]; exact lookup_filter_ne s.lastUrls name
  · rw [hf5]; rfl
  · intro cfg hcfg
    rw [hf5] at hcfg
    simp only [Option.mem_def, Option.some.injEq] at hcfg
    subst hcfg
    exact ⟨hnp, lookup_filter_ne s.lastUrls name⟩
  · intro hrm
    subst hrm
    rw [hf6]
    simp only [delCore, if_pos rfl]
    intro hc
    exact absurd rfl ((List.Nodup.mem_erase_iff (addDir_nodup h4 _)).mp hc).1
  · intro hrm
    subst hrm
    rw [hf7]
    simp [delCore]

/-- C6 witness: deleting the only profile with a failing `rmtree` still
removes it from the profile list. -/
theorem c6_deleteProfile_effects_witness :
    steamName 1 ∉ (deleteProfile (addAccount initState) (steamName 1) true false).profiles :=
  (c6_deleteProfile_effects (addAccount initState) (steamName 1) false
    (Reach.add Reach.init) (by decide)).1

/-- C7: the walker's initial cursor is the 1-based user index converted
to 0-based and clamped to `[0, length]`; each event preserves the list,
never decreases the cursor, and keeps it within `[0, length]`; an event
that moves the cursor to `length` stops the walker; and a walker at
`length` or already stopped ignores every further event. -/
theorem c7_walker_cursor :
    (∀ (lines : List (String × String)) (u : Int),
        ((walkerFromUI lines u).index : Int) = max 0 (min (u - 1) (lines.length : Int)) ∧
        (walkerFromUI lines u).index ≤ lines.length ∧ (walkerFromUI lines u).active = true) ∧
    (∀ (w : Walker) (e : WEvent),
        (wStep w e).lines = w.lines ∧ w.index ≤ (wStep w e).index ∧
        (w.index ≤ w.lines.length → (wStep w e).index ≤ w.lines.length)) ∧
    (∀ (w : Walker) (e : WEvent), w.index < w.lines.length →
        (wStep w e).index = w.lines.length → (wStep w e).active = false) ∧
    (∀ (w : Walker) (e : WEvent), w.lines.length ≤ w.index → wStep w e = w) ∧
    (∀ (w : Walker) (e : WEvent), w.active = false → wStep w e = w) := by
  refine ⟨?_, ?_, ?_, ?_, ?_⟩
  · intro lines u
    refine ⟨?_, ?_, rfl⟩ <;> simp only [walkerFromUI, walkerInit] <;> omega
  · intro w e
    cases e with
    | profileAdded vf btn =>
        cases btn <;> simp only [wStep] <;> split_ifs <;>
          simp_all [walkerStop] <;> omega
    | urlChanged st lg =>
        simp only [wStep] <;> split_ifs <;> simp_all [walkerStop] <;> omega
  · intro w e
    cases e with
    | profileAdded vf btn =>
        cases btn <;> simp only [wStep] <;> split_ifs <;>
          simp_all [walkerStop] <;> omega
    | urlChanged st lg =>
        simp only [wStep] <;> split_ifs <;> simp_all [walkerStop] <;> omega
  · intro w e h
    cases e with
    | profileAdded vf btn =>
        cases btn <;> simp only [wStep] <;> split_ifs <;> simp_all
    | urlChanged st lg =>
        simp only [wStep] <;> split_ifs <;> simp_all
  · intro w e h
    cases e with
    | profileAdded vf btn =>
        cases btn <;> simp only [wStep] <;> split_ifs <;> simp_all
    | urlChanged st lg =>
        simp only [wStep] <;> split_ifs <;> simp_all

/-- C7 witness: a single-entry walker at cursor 0 that confirms a
sign-in reaches the end and stops. -/
theorem c7_walker_cursor_witness :
    (wStep (Walker.mk [(sessA, sessB)] 0 true) (.urlChanged true false)).active = false :=
  c7_walker_cursor.2.2.1 (Walker.mk [(sessA, sessB)] 0 true)
    (.urlChanged true false) (by decide) (by decide)

/-- C8: the parser maps each line to at most one pair (so the output is
never longer than the input); on the specified example it produces
exactly the three pairs, and the 1-based start index 2 places the
walker's cursor on `("b","2")`. -/
theorem c8_parse_logpass :
    parseLogpassLines ["a:1", "b:2", "# comment", "", "c:3"]
      = [("a", "1"), ("b", "2"), ("c", "3")] ∧
    (∀ lines : List String, (parseLogpassLines lines).length ≤ lines.length) ∧
    (walkerFromUI (parseLogpassLines ["a:1", "b:2", "# comment", "", "c:3"]) 2).index = 1 ∧
    (parseLogpassLines ["a:1", "b:2", "# comment", "", "c:3"]).get? 1 = some ("b", "2") := by
  refine ⟨by decide, ?_, by decide, by decide⟩
  intro lines
  exact List.length_filterMap_le parseLine lines

/-- C9: writing the persisted config document and reading it back
yields the identical profile list, last-active name and URL map,
whatever defaults the reader starts from. -/
theorem c9_config_roundtrip (dW dL : Int) (c : Cfg) :
    (loadConfigJ dW dL (saveConfigJ c)).map Cfg.profiles = some c.profiles ∧
    (loadConfigJ dW dL (saveConfigJ c)).map Cfg.last_active = some c.last_active ∧
    (loadConfigJ dW dL (saveConfigJ c)).map Cfg.last_urls = some c.last_urls := by
  refine ⟨?_, ?_, ?_⟩ <;>
    simp [loadConfigJ, saveConfigJ, jGetD, List.lookup, pyStr, pyInt, List.map_map,
      Function.comp_def, Prod.mk.eta, List.map_id]

/-- C10: `addAccount` takes no name argument — it always registers
`nextSteamName`, which is `f"Steam {n}"` for the smallest positive `n`
not currently live; the generated name differs from every live session
name and its storage directory differs from every live session's
storage directory. -/
theorem c10_generated_name_fresh (s : AppState) :
    (addAccount s).browsers = s.browsers ++ [nextSteamName s.browsers] ∧
    nextSteamName s.browsers = steamName (nextSteamNum s.browsers) ∧
    nextSteamName s.browsers ∉ s.browsers ∧
    1 ≤ nextSteamNum s.browsers ∧
    (∀ m, 1 ≤ m → m < nextSteamNum s.browsers → steamName m ∈ s.browsers) ∧
    (∀ b ∈ s.browsers, profileDir (nextSteamName s.browsers) ≠ profileDir b) := by
  obtain ⟨hfree, hone, hmin⟩ := nextSteamNum_spec s.browsers
  refine ⟨?_, rfl, hfree, hone, hmin, ?_⟩
  · rw [addAccount_eq]
  · intro b hb heq
    have hnb : steamName (nextSteamNum s.browsers) = b := profileDir_inj heq
    rw [← hnb] at hb
    exact hfree hb

/-- C10 witness: with live sessions `Steam 1` and `Steam 3`, the next
name is `Steam 2` (minimality instantiated at m = 1). -/
theorem c10_generated_name_fresh_witness :
    steamName 1 ∈ (AppState.mk [] "" "" [steamName 1, steamName 3] [] 0 [] [] [] none).browsers :=
  (c10_generated_name_fresh
      (AppState.mk [] "" "" [steamName 1, steamName 3] [] 0 [] [] [] none)).2.2.2.2.1
    1 (by decide) (by decide)

end Multisteam
